import Mathlib

/-!
Shallow embedding of `src/contracts/src/PaymentSubscription.sol` (the
recurring-billing engine of the payment repository) and proofs of the
spec claims about it.

Modelling conventions:
* `address` and `bytes32` become `Nat`; the zero address / zero id is `0`.
* `block.timestamp` is a `Nat` parameter `now` of each operation
  (one sample per operation, as in the EVM).
* Solidity mappings are total functions with the zero-value default,
  exactly as in the EVM.
* A `require` failure (revert) is `Except.error msg`: the caller's state
  is unchanged, which is the EVM rollback semantics.
* The external ledger (token balances / allowances) is a read-only
  environment `Ledger`; the outcome of an external `transferFrom` /
  native-value call is an oracle `Bool` parameter (`pullOk` / `pushOk`),
  since the engine treats any ledger exception as a failure return.
-/

namespace PaymentSub

/-- Subscription status, enum `SubscriptionStatus` of the contract. -/
inductive SubStatus where
  | active
  | paused
  | canceled
  | expired
deriving DecidableEq, Repr

/-- Charge failure reason, enum `ChargeFailReason` of the contract. -/
inductive ChargeFailReason where
  | success
  | notDue
  | insufficientBalance
  | notApproved
  | paused
  | canceled
  | planInactive
deriving DecidableEq, Repr

/-- The `uint8` value of a `ChargeFailReason`, as returned by the public
`canCharge` and carried by `PaymentFailed` events. -/
def ChargeFailReason.toUint8 : ChargeFailReason → Nat
  | .success => 0
  | .notDue => 1
  | .insufficientBalance => 2
  | .notApproved => 3
  | .paused => 4
  | .canceled => 5
  | .planInactive => 6

/-- The `uint8` value of a `SubStatus`. -/
def SubStatus.toNat : SubStatus → Nat
  | .active => 0
  | .paused => 1
  | .canceled => 2
  | .expired => 3

/-- Struct `Plan` of the contract. `token = 0` is the native token. -/
structure Plan where
  id : Nat
  amount : Nat
  token : Nat
  interval : Nat
  merchant : Nat
  active : Bool
  subscriberCount : Nat
  createdAt : Nat
deriving DecidableEq, Repr

/-- The all-zero `Plan`, the mapping default. -/
def Plan.default0 : Plan :=
  { id := 0, amount := 0, token := 0, interval := 0, merchant := 0,
    active := false, subscriberCount := 0, createdAt := 0 }

/-- Struct `Subscription` of the contract. -/
structure Subscription where
  id : Nat
  planId : Nat
  subscriber : Nat
  status : SubStatus
  startTime : Nat
  currentPeriodStart : Nat
  currentPeriodEnd : Nat
  cancelAtPeriodEnd : Bool
  pausedAt : Nat
  paymentCount : Nat
deriving DecidableEq, Repr

/-- The all-zero `Subscription`, the mapping default (status 0 = Active). -/
def Subscription.default0 : Subscription :=
  { id := 0, planId := 0, subscriber := 0, status := .active, startTime := 0,
    currentPeriodStart := 0, currentPeriodEnd := 0, cancelAtPeriodEnd := false,
    pausedAt := 0, paymentCount := 0 }

/-- Struct `Payment` (one-time payment record) of the contract. -/
structure Payment where
  orderId : Nat
  payer : Nat
  merchant : Nat
  amount : Nat
  token : Nat
  timestamp : Nat
  paid : Bool
deriving DecidableEq, Repr

/-- The all-zero `Payment`, the mapping default. -/
def Payment.default0 : Payment :=
  { orderId := 0, payer := 0, merchant := 0, amount := 0, token := 0,
    timestamp := 0, paid := false }

/-- Struct `PaymentRecord` (per-subscription history entry). -/
structure PaymentRecord where
  amount : Nat
  timestamp : Nat
  periodStart : Nat
  periodEnd : Nat
deriving DecidableEq, Repr

/-- Events emitted by the contract (the notification sink of the spec). -/
inductive Event where
  | planCreated (planId merchant amount token interval : Nat)
  | planUpdated (planId : Nat) (active : Bool)
  | subscriptionCreated (subId planId subscriber startTime : Nat)
  | subscriptionStatusChanged (subId oldStatus newStatus : Nat)
  | subscriptionCanceled (subId timestamp : Nat) (immediately : Bool)
  | paymentExecuted (subId amount timestamp periodStart periodEnd : Nat)
  | paymentFailed (subId reason : Nat)
  | refunded (subId recipient amount : Nat)
  | paymentReceived (orderId payer merchant amount token : Nat)
  | tokenAdded (token : Nat)
  | tokenRemoved (token : Nat)
deriving DecidableEq, Repr

/-- The contract storage: the state variables of `PaymentSubscription`,
plus the `Ownable` owner, the `Pausable` flag and the emitted event log. -/
structure State where
  plans : Nat → Plan
  planIds : List Nat
  subs : Nat → Subscription
  subIds : List Nat
  userSubs : Nat → List Nat
  planSubs : Nat → List Nat
  subPayments : Nat → List PaymentRecord
  payments : Nat → Payment
  supportedTokens : List Nat
  tokenSupported : Nat → Bool
  subscriptionNonce : Nat
  owner : Nat
  contractPaused : Bool
  events : List Event

/-- Post-constructor state: deployer is owner, native token supported. -/
def initialState (deployer : Nat) : State :=
  { plans := fun _ => Plan.default0
    planIds := []
    subs := fun _ => Subscription.default0
    subIds := []
    userSubs := fun _ => []
    planSubs := fun _ => []
    subPayments := fun _ => []
    payments := fun _ => Payment.default0
    supportedTokens := [0]
    tokenSupported := fun t => t == 0
    subscriptionNonce := 0
    owner := deployer
    contractPaused := false
    events := [] }

/-- Point update of the plan mapping. -/
def State.setPlan (st : State) (id : Nat) (p : Plan) : State :=
  { st with plans := fun i => if i = id then p else st.plans i }

/-- Point update of the subscription mapping. -/
def State.setSub (st : State) (id : Nat) (s : Subscription) : State :=
  { st with subs := fun i => if i = id then s else st.subs i }

/-- Append to a subscription's payment history. -/
def State.pushSubPayment (st : State) (id : Nat) (r : PaymentRecord) : State :=
  { st with subPayments := fun i =>
      if i = id then st.subPayments i ++ [r] else st.subPayments i }

/-- Point update of the one-time-payment mapping. -/
def State.setPayment (st : State) (id : Nat) (p : Payment) : State :=
  { st with payments := fun i => if i = id then p else st.payments i }

/-- Emit an event. -/
def State.emit (st : State) (e : Event) : State :=
  { st with events := st.events ++ [e] }

/-- The external value-transfer ledger, read side: ERC20 `balanceOf` and
`allowance` (spender fixed to this contract), indexed holder-then-token. -/
structure Ledger where
  balanceOf : Nat → Nat → Nat
  allowance : Nat → Nat → Nat

/-- Source `MAX_BATCH_SIZE` constant. -/
def MAX_BATCH_SIZE : Nat := 100

/-- One day of seconds (`1 days`). -/
def oneDay : Nat := 86400

/-- Plan existence test (`plans[planId].merchant != address(0)`),
used by `planExists` and `requirePlanExists`. -/
def planExists (st : State) (planId : Nat) : Bool :=
  (st.plans planId).merchant != 0

/-- Subscription existence test
(`subscriptions[id].subscriber != address(0)`), used by
`subscriptionExists` and `requireSubscriptionExists`. -/
def subscriptionExists (st : State) (subId : Nat) : Bool :=
  (st.subs subId).subscriber != 0

/-- Source `createPlan(planId, amount, token, interval, merchantAddress)`. -/
def createPlan (st : State) (caller now : Nat)
    (planId amount token interval merchantAddress : Nat) :
    Except String State :=
  if st.contractPaused then .error "Pausable: paused"
  else if (st.plans planId).merchant ≠ 0 then .error "Plan already exists"
  else if amount = 0 then .error "Amount must be positive"
  else if interval < oneDay then .error "Interval too short"
  else if merchantAddress = 0 then .error "Invalid merchant"
  else if !st.tokenSupported token then .error "Token not supported"
  else
    let _ := caller
    let p : Plan :=
      { id := planId, amount := amount, token := token, interval := interval,
        merchant := merchantAddress, active := true, subscriberCount := 0,
        createdAt := now }
    let st := st.setPlan planId p
    let st := { st with planIds := st.planIds ++ [planId] }
    .ok (st.emit (.planCreated planId merchantAddress amount token interval))

/-- Source `updatePlan(planId, active)`. -/
def updatePlan (st : State) (caller now : Nat) (planId : Nat)
    (active : Bool) : Except String State :=
  if !planExists st planId then .error "Plan not found"
  else
    let _ := now
    let plan := st.plans planId
    if caller ≠ plan.merchant ∧ caller ≠ st.owner then .error "Not authorized"
    else
      let st := st.setPlan planId { plan with active := active }
      .ok (st.emit (.planUpdated planId active))

/-- Source `addSupportedToken(token)` (owner only). -/
def addSupportedToken (st : State) (caller token : Nat) :
    Except String State :=
  if caller ≠ st.owner then .error "Ownable: caller is not the owner"
  else if st.tokenSupported token then .error "Token already supported"
  else
    let st := { st with
      tokenSupported := fun t => if t = token then true else st.tokenSupported t
      supportedTokens := st.supportedTokens ++ [token] }
    .ok (st.emit (.tokenAdded token))

/-- Source `removeSupportedToken(token)` (owner only); swap-and-pop removal. -/
def removeSupportedToken (st : State) (caller token : Nat) :
    Except String State :=
  if caller ≠ st.owner then .error "Ownable: caller is not the owner"
  else if token = 0 then .error "Cannot remove native token"
  else if !st.tokenSupported token then .error "Token not supported"
  else
    let rest := st.supportedTokens.filter (fun t => t ≠ token)
    let st := { st with
      tokenSupported := fun t => if t = token then false else st.tokenSupported t
      supportedTokens := rest }
    .ok (st.emit (.tokenRemoved token))

/-- Source `pause()` (owner only). -/
def pauseContract (st : State) (caller : Nat) : Except String State :=
  if caller ≠ st.owner then .error "Ownable: caller is not the owner"
  else if st.contractPaused then .error "Pausable: paused"
  else .ok { st with contractPaused := true }

/-- Source `unpause()` (owner only). -/
def unpauseContract (st : State) (caller : Nat) : Except String State :=
  if caller ≠ st.owner then .error "Ownable: caller is not the owner"
  else if !st.contractPaused then .error "Pausable: not paused"
  else .ok { st with contractPaused := false }

/-- Subscription id generation — the model of
`keccak256(abi.encodePacked(planId, msg.sender, block.timestamp, nonce))`:
an injective encoding of the same four inputs. -/
def genSubId (planId caller now nonce : Nat) : Nat :=
  Nat.pair planId (Nat.pair caller (Nat.pair now nonce))

/-- Source `_executePayment(plan, payer)` — push transfer of the first charge.
Returns whether the whole transfer succeeded; `false` is a revert in the
caller. `msgValue` is `msg.value`; `pushOk` is the oracle for the
merchant-transfer / excess-refund calls (native) or `safeTransferFrom`
(ERC20). -/
def executePayment (plan : Plan) (msgValue : Nat) (pushOk : Bool) : Bool :=
  if plan.token = 0 then decide (plan.amount ≤ msgValue) && pushOk
  else pushOk

/-- Source `_subscribe(planId, trialDays)`. On success, returns the new state and
the subscription id. -/
def subscribeInternal (st : State) (caller now msgValue : Nat)
    (pushOk : Bool) (planId trialDays : Nat) :
    Except String (State × Nat) :=
  let plan := st.plans planId
  if !plan.active then .error "Plan is inactive"
  else
    let nonce := st.subscriptionNonce + 1
    let subId := genSubId planId caller now nonce
    let startTime := now
    let periodStart := startTime
    let periodEnd := if trialDays > 0 then startTime + trialDays * oneDay
      else startTime + plan.interval
    if trialDays = 0 ∧ executePayment plan msgValue pushOk = false then
      .error "Transfer failed"
    else
      let sub : Subscription :=
        { id := subId, planId := planId, subscriber := caller,
          status := .active, startTime := startTime,
          currentPeriodStart := periodStart, currentPeriodEnd := periodEnd,
          cancelAtPeriodEnd := false, pausedAt := 0,
          paymentCount := if trialDays > 0 then 0 else 1 }
      let st := { st with subscriptionNonce := nonce }
      let st := st.setSub subId sub
      let st := { st with subIds := st.subIds ++ [subId] }
      let st := { st with userSubs := fun u =>
        if u = caller then st.userSubs u ++ [subId] else st.userSubs u }
      let st := { st with planSubs := fun p =>
        if p = planId then st.planSubs p ++ [subId] else st.planSubs p }
      let st := st.setPlan planId
        { plan with subscriberCount := plan.subscriberCount + 1 }
      let st :=
        if trialDays = 0 then
          (st.pushSubPayment subId
            { amount := plan.amount, timestamp := now,
              periodStart := periodStart, periodEnd := periodEnd }).emit
            (.paymentExecuted subId plan.amount now periodStart periodEnd)
        else st
      .ok (st.emit (.subscriptionCreated subId planId caller startTime), subId)

/-- Public `subscribe(planId)` (payable). -/
def subscribe (st : State) (caller now msgValue : Nat) (pushOk : Bool)
    (planId : Nat) : Except String (State × Nat) :=
  if st.contractPaused then .error "Pausable: paused"
  else if !planExists st planId then .error "Plan not found"
  else subscribeInternal st caller now msgValue pushOk planId 0

/-- Public `subscribeWithTrial(planId, trialDays)` (non-payable, so
`msg.value = 0`). -/
def subscribeWithTrial (st : State) (caller now : Nat) (pushOk : Bool)
    (planId trialDays : Nat) : Except String (State × Nat) :=
  if st.contractPaused then .error "Pausable: paused"
  else if !planExists st planId then .error "Plan not found"
  else subscribeInternal st caller now 0 pushOk planId trialDays

/-- Source `cancelSubscription(subscriptionId, immediately)`. -/
def cancelSubscription (st : State) (caller now : Nat) (subId : Nat)
    (immediately : Bool) : Except String State :=
  if !subscriptionExists st subId then .error "Subscription not found"
  else
    let sub := st.subs subId
    let plan := st.plans sub.planId
    if caller ≠ sub.subscriber ∧ caller ≠ plan.merchant then
      .error "Not authorized"
    else if ¬(sub.status = .active ∨ sub.status = .paused) then
      .error "Subscription not active"
    else
      let st :=
        if immediately then
          ((st.setSub subId
            { sub with status := .canceled, currentPeriodEnd := now }).emit
            (.subscriptionStatusChanged subId sub.status.toNat 2))
        else st.setSub subId { sub with cancelAtPeriodEnd := true }
      .ok (st.emit (.subscriptionCanceled subId now immediately))

/-- Source `pauseSubscription(subscriptionId)`. -/
def pauseSubscription (st : State) (caller now : Nat) (subId : Nat) :
    Except String State :=
  if !subscriptionExists st subId then .error "Subscription not found"
  else
    let sub := st.subs subId
    let plan := st.plans sub.planId
    if caller ≠ sub.subscriber ∧ caller ≠ plan.merchant then
      .error "Not authorized"
    else if sub.status ≠ .active then .error "Subscription not active"
    else
      let st := st.setSub subId { sub with status := .paused, pausedAt := now }
      .ok (st.emit (.subscriptionStatusChanged subId 0 1))

/-- Source `resumeSubscription(subscriptionId)` (subscriber only): extends the
period end by the paused duration, clears `pausedAt` and the
cancel-at-period-end flag. -/
def resumeSubscription (st : State) (caller now : Nat) (subId : Nat) :
    Except String State :=
  if !subscriptionExists st subId then .error "Subscription not found"
  else
    let sub := st.subs subId
    if caller ≠ sub.subscriber then .error "Only subscriber can resume"
    else if sub.status ≠ .paused then .error "Subscription not paused"
    else
      let pausedDuration := now - sub.pausedAt
      let st := st.setSub subId
        { sub with
          status := .active,
          currentPeriodEnd := sub.currentPeriodEnd + pausedDuration,
          pausedAt := 0, cancelAtPeriodEnd := false }
      .ok (st.emit (.subscriptionStatusChanged subId 1 0))

/-- Source `_canCharge(subscriptionId)` — the seven-way eligibility check, in
source order. -/
def canChargeInternal (st : State) (L : Ledger) (now subId : Nat) :
    Bool × ChargeFailReason :=
  let sub := st.subs subId
  let plan := st.plans sub.planId
  if !plan.active then (false, .planInactive)
  else if sub.status = .canceled then (false, .canceled)
  else if sub.status = .paused then (false, .paused)
  else if now < sub.currentPeriodEnd then (false, .notDue)
  else if plan.token = 0 then (true, .success)
  else if L.balanceOf sub.subscriber plan.token < plan.amount then
    (false, .insufficientBalance)
  else if L.allowance sub.subscriber plan.token < plan.amount then
    (false, .notApproved)
  else (true, .success)

/-- Public `canCharge(subscriptionId)` view: reason as its `uint8` code. -/
def canCharge (st : State) (L : Ledger) (now subId : Nat) : Bool × Nat :=
  let r := canChargeInternal st L now subId
  (r.1, r.2.toUint8)

/-- Source `_executePaymentFrom(plan, payer)` — pull transfer for renewals.
Native-token pull always fails; for ERC20 the `try transferFrom` outcome
is the oracle `pullOk`. -/
def executePaymentFrom (plan : Plan) (pullOk : Bool) : Bool :=
  if plan.token = 0 then false else pullOk

/-- Source `_chargeSubscription(subscriptionId)`: deferred-cancel check, pull,
then period advance / history append, or the Expired transition. -/
def chargeSubscriptionInternal (st : State) (pullOk : Bool)
    (now subId : Nat) : State × Bool :=
  let sub := st.subs subId
  let plan := st.plans sub.planId
  if sub.cancelAtPeriodEnd then
    (((st.setSub subId { sub with status := .canceled }).emit
      (.subscriptionStatusChanged subId sub.status.toNat 2)), false)
  else if executePaymentFrom plan pullOk = false then
    ((((st.setSub subId { sub with status := .expired }).emit
      (.subscriptionStatusChanged subId sub.status.toNat 3)).emit
      (.paymentFailed subId ChargeFailReason.insufficientBalance.toUint8)),
      false)
  else
    let newPeriodStart := sub.currentPeriodEnd
    let newPeriodEnd := newPeriodStart + plan.interval
    let st := st.setSub subId
      { sub with
        currentPeriodStart := newPeriodStart,
        currentPeriodEnd := newPeriodEnd,
        paymentCount := sub.paymentCount + 1 }
    let st := st.pushSubPayment subId
      { amount := plan.amount, timestamp := now,
        periodStart := newPeriodStart, periodEnd := newPeriodEnd }
    (st.emit (.paymentExecuted subId plan.amount now newPeriodStart
      newPeriodEnd), true)

/-- Public `charge(subscriptionId)`. -/
def charge (st : State) (L : Ledger) (pullOk : Bool) (now subId : Nat) :
    Except String (State × Bool) :=
  if !subscriptionExists st subId then .error "Subscription not found"
  else
    let r := canChargeInternal st L now subId
    if r.1 = false then
      .ok (st.emit (.paymentFailed subId r.2.toUint8), false)
    else .ok (chargeSubscriptionInternal st pullOk now subId)

/-- One loop iteration of `batchCharge`. -/
def batchChargeStep (L : Ledger) (now : Nat) (pullOk : Bool) (st : State)
    (subId : Nat) : State × Bool :=
  if !subscriptionExists st subId then (st, false)
  else if (canChargeInternal st L now subId).1 then
    chargeSubscriptionInternal st pullOk now subId
  else (st, false)

/-- The `batchCharge` loop: item `i` uses pull oracle `pullOks i`. -/
def batchChargeGo (L : Ledger) (now : Nat) (pullOks : Nat → Bool) :
    Nat → State → List Nat → State × List Bool
  | _, st, [] => (st, [])
  | i, st, subId :: rest =>
    let r := batchChargeStep L now (pullOks i) st subId
    let tail := batchChargeGo L now pullOks (i + 1) r.1 rest
    (tail.1, r.2 :: tail.2)

/-- Public `batchCharge(subscriptionIds)`. -/
def batchCharge (st : State) (L : Ledger) (pullOks : Nat → Bool)
    (now : Nat) (subIdList : List Nat) :
    Except String (State × List Bool) :=
  if subIdList.length > MAX_BATCH_SIZE then .error "Batch too large"
  else .ok (batchChargeGo L now pullOks 0 st subIdList)

/-- Source `refund(subscriptionId, amount, to)` (merchant only, payable). -/
def refund (st : State) (caller now msgValue : Nat) (pushOk : Bool)
    (subId amount toAddr : Nat) : Except String State :=
  if !subscriptionExists st subId then .error "Subscription not found"
  else
    let sub := st.subs subId
    let plan := st.plans sub.planId
    if caller ≠ plan.merchant then .error "Only merchant can refund"
    else if amount = 0 then .error "Amount must be positive"
    else
      let recipient := if toAddr = 0 then sub.subscriber else toAddr
      if plan.token = 0 then
        if msgValue < amount then .error "Insufficient refund amount"
        else if !pushOk then .error "Refund failed"
        else .ok (st.emit (.refunded subId recipient amount))
      else if !pushOk then .error "Transfer failed"
      else
        let _ := now
        .ok (st.emit (.refunded subId recipient amount))

/-- Source `pay(orderId, amount, token, merchant)` — one-time payment. -/
def pay (st : State) (caller now msgValue : Nat) (pushOk : Bool)
    (orderId amount token merchant : Nat) : Except String State :=
  if st.contractPaused then .error "Pausable: paused"
  else if (st.payments orderId).payer ≠ 0 then .error "Order already paid"
  else if amount = 0 then .error "Amount must be positive"
  else if merchant = 0 then .error "Invalid merchant"
  else if !st.tokenSupported token then .error "Token not supported"
  else if token = 0 then
    if msgValue < amount then .error "Insufficient payment"
    else if !pushOk then .error "Transfer failed"
    else
      .ok ((st.setPayment orderId
        { orderId := orderId, payer := caller, merchant := merchant,
          amount := amount, token := token, timestamp := now,
          paid := true }).emit
        (.paymentReceived orderId caller merchant amount token))
  else if !pushOk then .error "Transfer failed"
  else
    .ok ((st.setPayment orderId
      { orderId := orderId, payer := caller, merchant := merchant,
        amount := amount, token := token, timestamp := now,
        paid := true }).emit
      (.paymentReceived orderId caller merchant amount token))

/-- Source `getPayment(orderId)` view: (paid, payer, merchant, amount, token,
timestamp). -/
def getPayment (st : State) (orderId : Nat) :
    Bool × Nat × Nat × Nat × Nat × Nat :=
  let p := st.payments orderId
  (p.paid, p.payer, p.merchant, p.amount, p.token, p.timestamp)

/-- One external transaction against the contract, with its caller,
`msg.value` and ledger/transfer oracles where relevant. -/
inductive Op where
  | createPlan (caller planId amount token interval merchant : Nat)
  | updatePlan (caller planId : Nat) (active : Bool)
  | addSupportedToken (caller token : Nat)
  | removeSupportedToken (caller token : Nat)
  | pauseContract (caller : Nat)
  | unpauseContract (caller : Nat)
  | subscribe (caller msgValue : Nat) (pushOk : Bool) (planId : Nat)
  | subscribeWithTrial (caller : Nat) (pushOk : Bool) (planId trialDays : Nat)
  | cancelSubscription (caller subId : Nat) (immediately : Bool)
  | pauseSubscription (caller subId : Nat)
  | resumeSubscription (caller subId : Nat)
  | charge (L : Ledger) (pullOk : Bool) (subId : Nat)
  | batchCharge (L : Ledger) (pullOks : Nat → Bool) (subIdList : List Nat)
  | pay (caller msgValue : Nat) (pushOk : Bool)
      (orderId amount token merchant : Nat)
  | refund (caller msgValue : Nat) (pushOk : Bool)
      (subId amount toAddr : Nat)

/-- Run one transaction at timestamp `now`; a revert leaves the state
unchanged (EVM rollback). -/
def applyOp (st : State) (now : Nat) : Op → State
  | .createPlan c pid a t i m => ((createPlan st c now pid a t i m).toOption).getD st
  | .updatePlan c pid a => ((updatePlan st c now pid a).toOption).getD st
  | .addSupportedToken c t => ((addSupportedToken st c t).toOption).getD st
  | .removeSupportedToken c t => ((removeSupportedToken st c t).toOption).getD st
  | .pauseContract c => ((pauseContract st c).toOption).getD st
  | .unpauseContract c => ((unpauseContract st c).toOption).getD st
  | .subscribe c v ok pid =>
    (((subscribe st c now v ok pid).toOption).map Prod.fst).getD st
  | .subscribeWithTrial c ok pid d =>
    (((subscribeWithTrial st c now ok pid d).toOption).map Prod.fst).getD st
  | .cancelSubscription c sid imm =>
    ((cancelSubscription st c now sid imm).toOption).getD st
  | .pauseSubscription c sid => ((pauseSubscription st c now sid).toOption).getD st
  | .resumeSubscription c sid => ((resumeSubscription st c now sid).toOption).getD st
  | .charge L ok sid => (((charge st L ok now sid).toOption).map Prod.fst).getD st
  | .batchCharge L oks ids =>
    (((batchCharge st L oks now ids).toOption).map Prod.fst).getD st
  | .pay c v ok oid a t m => ((pay st c now v ok oid a t m).toOption).getD st
  | .refund c v ok sid a toA => ((refund st c now v ok sid a toA).toOption).getD st

/-- Reachability with a non-decreasing block timestamp: `Reachable st t`
means the contract can be in storage `st` with the last transaction at
time `t`. -/
inductive Reachable : State → Nat → Prop where
  | init (deployer t0 : Nat) : Reachable (initialState deployer) t0
  | step {st : State} {t : Nat} (op : Op) (t' : Nat) :
      Reachable st t → t ≤ t' → Reachable (applyOp st t' op) t'

@[simp] theorem setPlan_subs (st : State) (id : Nat) (p : Plan) :
    (st.setPlan id p).subs = st.subs := rfl

@[simp] theorem setPayment_subs (st : State) (id : Nat) (p : Payment) :
    (st.setPayment id p).subs = st.subs := rfl

@[simp] theorem pushSubPayment_subs (st : State) (id : Nat)
    (r : PaymentRecord) : (st.pushSubPayment id r).subs = st.subs := rfl

@[simp] theorem emit_subs (st : State) (e : Event) :
    (st.emit e).subs = st.subs := rfl

@[simp] theorem setSub_subs (st : State) (id : Nat) (s : Subscription)
    (i : Nat) :
    (st.setSub id s).subs i = if i = id then s else st.subs i := rfl

/-- The period/time part of the state invariant: every existing
subscription has `currentPeriodStart ≤ currentPeriodEnd`, and its
`currentPeriodStart` is not in the future of the last transaction. -/
def Inv (st : State) (t : Nat) : Prop :=
  ∀ id, (st.subs id).subscriber ≠ 0 →
    (st.subs id).currentPeriodStart ≤ (st.subs id).currentPeriodEnd ∧
    (st.subs id).currentPeriodStart ≤ t

theorem Inv.mono {st : State} {t t' : Nat} (h : Inv st t) (hle : t ≤ t') :
    Inv st t' :=
  fun id hex => ⟨(h id hex).1, le_trans (h id hex).2 hle⟩

theorem Inv.of_subs_eq {st st' : State} {t : Nat} (h : Inv st t)
    (heq : st'.subs = st.subs) : Inv st' t := by
  intro id hex
  rw [heq] at hex ⊢
  exact h id hex

/-- Updating one subscription to a conforming value preserves `Inv`. -/
theorem Inv.setSub {st : State} {t : Nat} (h : Inv st t) (id : Nat)
    {s : Subscription}
    (hs : s.subscriber ≠ 0 →
      s.currentPeriodStart ≤ s.currentPeriodEnd ∧
      s.currentPeriodStart ≤ t) :
    Inv (st.setSub id s) t := by
  intro i hex
  simp only [setSub_subs] at hex ⊢
  by_cases hi : i = id
  · simpa [hi] using hs (by simpa [hi] using hex)
  · simpa [hi] using h i (by simpa [hi] using hex)

theorem createPlan_subs {st : State} {c now pid a tk iv m : Nat}
    {st' : State} (hok : createPlan st c now pid a tk iv m = .ok st') :
    st'.subs = st.subs := by
  unfold createPlan at hok
  try dsimp only at hok
  split at hok <;> try exact Except.noConfusion hok
  split at hok <;> try exact Except.noConfusion hok
  split at hok <;> try exact Except.noConfusion hok
  split at hok <;> try exact Except.noConfusion hok
  split at hok <;> try exact Except.noConfusion hok
  split at hok <;> try exact Except.noConfusion hok
  cases hok
  rfl

theorem updatePlan_subs {st : State} {c now pid : Nat} {a : Bool}
    {st' : State} (hok : updatePlan st c now pid a = .ok st') :
    st'.subs = st.subs := by
  unfold updatePlan at hok
  try dsimp only at hok
  split at hok <;> try exact Except.noConfusion hok
  split at hok <;> try exact Except.noConfusion hok
  cases hok
  rfl

theorem addSupportedToken_subs {st : State} {c tk : Nat} {st' : State}
    (hok : addSupportedToken st c tk = .ok st') : st'.subs = st.subs := by
  unfold addSupportedToken at hok
  try dsimp only at hok
  split at hok <;> try exact Except.noConfusion hok
  split at hok <;> try exact Except.noConfusion hok
  cases hok
  rfl

theorem removeSupportedToken_subs {st : State} {c tk : Nat} {st' : State}
    (hok : removeSupportedToken st c tk = .ok st') : st'.subs = st.subs := by
  unfold removeSupportedToken at hok
  try dsimp only at hok
  split at hok <;> try exact Except.noConfusion hok
  split at hok <;> try exact Except.noConfusion hok
  split at hok <;> try exact Except.noConfusion hok
  cases hok
  rfl

theorem pauseContract_subs {st : State} {c : Nat} {st' : State}
    (hok : pauseContract st c = .ok st') : st'.subs = st.subs := by
  unfold pauseContract at hok
  try dsimp only at hok
  split at hok <;> try exact Except.noConfusion hok
  split at hok <;> try exact Except.noConfusion hok
  cases hok
  rfl

theorem unpauseContract_subs {st : State} {c : Nat} {st' : State}
    (hok : unpauseContract st c = .ok st') : st'.subs = st.subs := by
  unfold unpauseContract at hok
  try dsimp only at hok
  split at hok <;> try exact Except.noConfusion hok
  split at hok <;> try exact Except.noConfusion hok
  cases hok
  rfl

theorem pay_subs {st : State} {c now v : Nat} {ok : Bool}
    {oid a tk m : Nat} {st' : State}
    (hok : pay st c now v ok oid a tk m = .ok st') : st'.subs = st.subs := by
  unfold pay at hok
  try dsimp only at hok
  split at hok <;> try exact Except.noConfusion hok
  split at hok <;> try exact Except.noConfusion hok
  split at hok <;> try exact Except.noConfusion hok
  split at hok <;> try exact Except.noConfusion hok
  split at hok <;> try exact Except.noConfusion hok
  split at hok
  · split at hok <;> try exact Except.noConfusion hok
    split at hok <;> try exact Except.noConfusion hok
    cases hok
    rfl
  · split at hok <;> try exact Except.noConfusion hok
    cases hok
    rfl

theorem refund_subs {st : State} {c now v : Nat} {ok : Bool}
    {sid a toA : Nat} {st' : State}
    (hok : refund st c now v ok sid a toA = .ok st') :
    st'.subs = st.subs := by
  unfold refund at hok
  try dsimp only at hok
  split at hok <;> try exact Except.noConfusion hok
  split at hok <;> try exact Except.noConfusion hok
  split at hok <;> try exact Except.noConfusion hok
  split at hok
  · split at hok <;> try exact Except.noConfusion hok
    split at hok <;> try exact Except.noConfusion hok
    cases hok
    rfl
  · split at hok <;> try exact Except.noConfusion hok
    cases hok
    rfl

theorem inv_subscribeInternal {st : State} {t : Nat} (h : Inv st t)
    {caller msgValue : Nat} {pushOk : Bool} {planId trialDays : Nat}
    {st' : State} {sid : Nat}
    (hok : subscribeInternal st caller t msgValue pushOk planId trialDays
      = .ok (st', sid)) : Inv st' t := by
  unfold subscribeInternal at hok
  try dsimp only at hok
  split at hok <;> try exact Except.noConfusion hok
  split at hok <;> try exact Except.noConfusion hok
  cases hok
  intro i hex
  by_cases htrial : trialDays = 0
  · simp only [htrial, lt_self_iff_false, reduceIte, emit_subs,
      pushSubPayment_subs, setPlan_subs, setSub_subs, gt_iff_lt] at hex ⊢
    by_cases hi : i = genSubId planId caller t (st.subscriptionNonce + 1) <;>
      simp only [hi, reduceIte] at hex ⊢
    · exact ⟨Nat.le_add_right _ _, Nat.le_refl _⟩
    · exact h i hex
  · have hpos : 0 < trialDays := Nat.pos_of_ne_zero htrial
    simp only [htrial, hpos, gt_iff_lt, reduceIte, emit_subs,
      pushSubPayment_subs, setPlan_subs, setSub_subs] at hex ⊢
    by_cases hi : i = genSubId planId caller t (st.subscriptionNonce + 1) <;>
      simp only [hi, reduceIte] at hex ⊢
    · exact ⟨Nat.le_add_right _ _, Nat.le_refl _⟩
    · exact h i hex

theorem inv_cancelSubscription {st : State} {t : Nat} (h : Inv st t)
    {c sid : Nat} {imm : Bool} {st' : State}
    (hok : cancelSubscription st c t sid imm = .ok st') : Inv st' t := by
  unfold cancelSubscription at hok
  try dsimp only at hok
  split at hok <;> try exact Except.noConfusion hok
  split at hok <;> try exact Except.noConfusion hok
  split at hok <;> try exact Except.noConfusion hok
  rename_i hexists _ _
  cases hok
  split
  all_goals
    refine Inv.of_subs_eq (Inv.setSub h sid ?_) rfl
    intro _
  · refine ⟨?_, ?_⟩ <;>
      simpa using (h sid (by simpa [subscriptionExists] using hexists)).2
  · exact h sid (by simpa [subscriptionExists] using hexists)

theorem inv_pauseSubscription {st : State} {t : Nat} (h : Inv st t)
    {c sid : Nat} {st' : State}
    (hok : pauseSubscription st c t sid = .ok st') : Inv st' t := by
  unfold pauseSubscription at hok
  try dsimp only at hok
  split at hok <;> try exact Except.noConfusion hok
  split at hok <;> try exact Except.noConfusion hok
  split at hok <;> try exact Except.noConfusion hok
  rename_i hexists _ _
  cases hok
  refine Inv.of_subs_eq (Inv.setSub h sid ?_) rfl
  intro _
  exact h sid (by simpa [subscriptionExists] using hexists)

theorem inv_resumeSubscription {st : State} {t : Nat} (h : Inv st t)
    {c sid : Nat} {st' : State}
    (hok : resumeSubscription st c t sid = .ok st') : Inv st' t := by
  unfold resumeSubscription at hok
  try dsimp only at hok
  split at hok <;> try exact Except.noConfusion hok
  split at hok <;> try exact Except.noConfusion hok
  split at hok <;> try exact Except.noConfusion hok
  rename_i hexists _ _
  cases hok
  refine Inv.of_subs_eq (Inv.setSub h sid ?_) rfl
  intro _
  have hs := h sid (by simpa [subscriptionExists] using hexists)
  exact ⟨le_trans hs.1 (Nat.le_add_right _ _), hs.2⟩

/-- A positive `_canCharge` verdict implies the subscription is due. -/
theorem canChargeInternal_due {st : State} {L : Ledger} {now sid : Nat}
    (hok : (canChargeInternal st L now sid).1 = true) :
    (st.subs sid).currentPeriodEnd ≤ now := by
  unfold canChargeInternal at hok
  try dsimp only at hok
  split at hok <;> try simp at hok
  split at hok <;> try simp at hok
  split at hok <;> try simp at hok
  split at hok
  · simp at hok
  · omega

theorem inv_chargeSubscriptionInternal {st : State} {t : Nat}
    (h : Inv st t) {pullOk : Bool} {sid : Nat}
    (hdue : (st.subs sid).currentPeriodEnd ≤ t) :
    Inv (chargeSubscriptionInternal st pullOk t sid).1 t := by
  unfold chargeSubscriptionInternal
  dsimp only
  split
  · refine Inv.of_subs_eq (Inv.setSub h sid ?_) rfl
    intro hex
    exact h sid hex
  split
  · refine Inv.of_subs_eq (Inv.setSub h sid ?_) rfl
    intro hex
    exact h sid hex
  · refine Inv.of_subs_eq (Inv.setSub h sid ?_) rfl
    intro _
    exact ⟨Nat.le_add_right _ _, hdue⟩

theorem inv_batchChargeStep {st : State} {t : Nat} (h : Inv st t)
    (L : Ledger) (pullOk : Bool) (sid : Nat) :
    Inv (batchChargeStep L t pullOk st sid).1 t := by
  unfold batchChargeStep
  split
  · exact h
  split
  · exact inv_chargeSubscriptionInternal h (canChargeInternal_due (by assumption))
  · exact h

theorem inv_batchChargeGo {t : Nat} (L : Ledger) (pullOks : Nat → Bool)
    (ids : List Nat) : ∀ (i : Nat) (st : State), Inv st t →
    Inv (batchChargeGo L t pullOks i st ids).1 t := by
  induction ids with
  | nil => intro i st h; exact h
  | cons hd tl ih =>
    intro i st h
    exact ih (i + 1) _ (inv_batchChargeStep h L (pullOks i) hd)

/-- Every transaction preserves the period invariant. -/
theorem inv_applyOp {st : State} {t : Nat} (op : Op) (h : Inv st t) :
    Inv (applyOp st t op) t := by
  cases op with
  | createPlan c pid a tk iv m =>
    cases hres : createPlan st c t pid a tk iv m with
    | error e => simpa [applyOp, hres, Except.toOption] using h
    | ok st' =>
      simp only [applyOp, hres, Except.toOption, Option.getD]
      exact Inv.of_subs_eq h (createPlan_subs hres)
  | updatePlan c pid a =>
    cases hres : updatePlan st c t pid a with
    | error e => simpa [applyOp, hres, Except.toOption] using h
    | ok st' =>
      simp only [applyOp, hres, Except.toOption, Option.getD]
      exact Inv.of_subs_eq h (updatePlan_subs hres)
  | addSupportedToken c tk =>
    cases hres : addSupportedToken st c tk with
    | error e => simpa [applyOp, hres, Except.toOption] using h
    | ok st' =>
      simp only [applyOp, hres, Except.toOption, Option.getD]
      exact Inv.of_subs_eq h (addSupportedToken_subs hres)
  | removeSupportedToken c tk =>
    cases hres : removeSupportedToken st c tk with
    | error e => simpa [applyOp, hres, Except.toOption] using h
    | ok st' =>
      simp only [applyOp, hres, Except.toOption, Option.getD]
      exact Inv.of_subs_eq h (removeSupportedToken_subs hres)
  | pauseContract c =>
    cases hres : pauseContract st c with
    | error e => simpa [applyOp, hres, Except.toOption] using h
    | ok st' =>
      simp only [applyOp, hres, Except.toOption, Option.getD]
      exact Inv.of_subs_eq h (pauseContract_subs hres)
  | unpauseContract c =>
    cases hres : unpauseContract st c with
    | error e => simpa [applyOp, hres, Except.toOption] using h
    | ok st' =>
      simp only [applyOp, hres, Except.toOption, Option.getD]
      exact Inv.of_subs_eq h (unpauseContract_subs hres)
  | subscribe c v ok pid =>
    cases hres : subscribe st c t v ok pid with
    | error e => simpa [applyOp, hres, Except.toOption] using h
    | ok p =>
      simp only [applyOp, hres, Except.toOption, Option.map, Option.getD]
      unfold subscribe at hres
      split at hres <;> try exact Except.noConfusion hres
      split at hres <;> try exact Except.noConfusion hres
      exact inv_subscribeInternal h (by rw [hres])
  | subscribeWithTrial c ok pid d =>
    cases hres : subscribeWithTrial st c t ok pid d with
    | error e => simpa [applyOp, hres, Except.toOption] using h
    | ok p =>
      simp only [applyOp, hres, Except.toOption, Option.map, Option.getD]
      unfold subscribeWithTrial at hres
      split at hres <;> try exact Except.noConfusion hres
      split at hres <;> try exact Except.noConfusion hres
      exact inv_subscribeInternal h (by rw [hres])
  | cancelSubscription c sid imm =>
    cases hres : cancelSubscription st c t sid imm with
    | error e => simpa [applyOp, hres, Except.toOption] using h
    | ok st' =>
      simp only [applyOp, hres, Except.toOption, Option.getD]
      exact inv_cancelSubscription h hres
  | pauseSubscription c sid =>
    cases hres : pauseSubscription st c t sid with
    | error e => simpa [applyOp, hres, Except.toOption] using h
    | ok st' =>
      simp only [applyOp, hres, Except.toOption, Option.getD]
      exact inv_pauseSubscription h hres
  | resumeSubscription c sid =>
    cases hres : resumeSubscription st c t sid with
    | error e => simpa [applyOp, hres, Except.toOption] using h
    | ok st' =>
      simp only [applyOp, hres, Except.toOption, Option.getD]
      exact inv_resumeSubscription h hres
  | charge L ok sid =>
    cases hres : charge st L ok t sid with
    | error e => simpa [applyOp, hres, Except.toOption] using h
    | ok p =>
      simp only [applyOp, hres, Except.toOption, Option.map, Option.getD]
      unfold charge at hres
      try dsimp only at hres
      split at hres <;> try exact Except.noConfusion hres
      split at hres
      · cases hres
        intro i hex
        simp only [emit_subs] at hex ⊢
        exact h i hex
      · rename_i hcan
        cases hres
        exact inv_chargeSubscriptionInternal h
          (canChargeInternal_due (by simpa using hcan))
  | batchCharge L oks ids =>
    cases hres : batchCharge st L oks t ids with
    | error e => simpa [applyOp, hres, Except.toOption] using h
    | ok p =>
      simp only [applyOp, hres, Except.toOption, Option.map, Option.getD]
      unfold batchCharge at hres
      split at hres <;> try exact Except.noConfusion hres
      cases hres
      exact inv_batchChargeGo L oks ids 0 st h
  | pay c v ok oid a tk m =>
    cases hres : pay st c t v ok oid a tk m with
    | error e => simpa [applyOp, hres, Except.toOption] using h
    | ok st' =>
      simp only [applyOp, hres, Except.toOption, Option.getD]
      exact Inv.of_subs_eq h (pay_subs hres)
  | refund c v ok sid a toA =>
    cases hres : refund st c t v ok sid a toA with
    | error e => simpa [applyOp, hres, Except.toOption] using h
    | ok st' =>
      simp only [applyOp, hres, Except.toOption, Option.getD]
      exact Inv.of_subs_eq h (refund_subs hres)

/-- The period invariant holds in every reachable state. -/
theorem inv_reachable {st : State} {t : Nat} (h : Reachable st t) :
    Inv st t := by
  induction h with
  | init deployer t0 =>
    intro id hex
    simp [initialState, Subscription.default0] at hex
  | step op t' _ hle ih => exact inv_applyOp op (ih.mono hle)

/-! Concrete scenario states, built by running transactions from the
freshly deployed contract (deployer/owner 1, merchant 2, subscriber 3,
ERC20 token 7, plan id 5, amount 10, interval one day). -/

/-- A ledger where every holder has ample balance and allowance. -/
def Lfull : Ledger := { balanceOf := fun _ _ => 100, allowance := fun _ _ => 100 }

/-- A ledger where every balance and allowance is zero. -/
def Lempty : Ledger := { balanceOf := fun _ _ => 0, allowance := fun _ _ => 0 }

/-- After the owner registers ERC20 token 7 at time 100. -/
def stTok : State := applyOp (initialState 1) 100 (.addSupportedToken 1 7)

/-- After merchant 2's plan 5 (amount 10, token 7, one-day interval) is
created at time 100. -/
def stPlanE : State := applyOp stTok 100 (.createPlan 1 5 10 7 oneDay 2)

/-- The id of the first subscription created at time 100 on plan 5 by
subscriber 3 (nonce 1). -/
def sidE : Nat := genSubId 5 3 100 1

/-- After subscriber 3 subscribes to plan 5 with a one-day trial at
time 100: period is [100, 86500), no charge taken. -/
def stSubE : State := applyOp stPlanE 100 (.subscribeWithTrial 3 true 5 1)

theorem reachable_stTok : Reachable stTok 100 :=
  Reachable.step (.addSupportedToken 1 7) 100 (Reachable.init 1 100)
    (Nat.le_refl 100)

theorem reachable_stPlanE : Reachable stPlanE 100 :=
  Reachable.step (.createPlan 1 5 10 7 oneDay 2) 100 reachable_stTok
    (Nat.le_refl 100)

theorem reachable_stSubE : Reachable stSubE 100 :=
  Reachable.step (.subscribeWithTrial 3 true 5 1) 100 reachable_stPlanE
    (Nat.le_refl 100)

/-- Immediately canceling the trial subscription in the same block it was
created: `currentPeriodEnd` is set to `now = 100 = currentPeriodStart`. -/
def stC5 : State := applyOp stSubE 100 (.cancelSubscription 3 sidE true)

/-- C5: the claimed strict invariant `currentPeriodEnd >
currentPeriodStart` fails on the code: starting from deployment, after
`createPlan`, `subscribeWithTrial` and an immediate `cancelSubscription`
in the same block (timestamp 100), the subscription exists and has
`currentPeriodStart = currentPeriodEnd = 100`, because immediate
cancellation sets `currentPeriodEnd = block.timestamp` without any strict
check. -/
theorem C5_counterexample :
    Reachable stC5 100 ∧ subscriptionExists stC5 sidE = true ∧
    (stC5.subs sidE).currentPeriodStart = 100 ∧
    (stC5.subs sidE).currentPeriodEnd = 100 ∧
    ¬((stC5.subs sidE).currentPeriodStart <
      (stC5.subs sidE).currentPeriodEnd) :=
  ⟨Reachable.step (.cancelSubscription 3 sidE true) 100 reachable_stSubE
      (Nat.le_refl 100),
    by decide, by decide, by decide, by decide⟩

/-- C5 (amended): for every existing subscription, at every observable
point after any sequence of operations, `currentPeriodStart ≤
currentPeriodEnd` holds; the inequality is strict except that an
immediate cancellation at a block timestamp equal to the current period
start makes the two fields equal. -/
theorem C5_period_start_le_end {st : State} {t : Nat} (h : Reachable st t)
    (id : Nat) (hex : subscriptionExists st id = true) :
    (st.subs id).currentPeriodStart ≤ (st.subs id).currentPeriodEnd :=
  (inv_reachable h id (by simpa [subscriptionExists] using hex)).1

/-- C5 witness: in the concrete reachable state after a trial
subscription, the subscription exists and its period is well ordered. -/
theorem C5_period_start_le_end_witness :
    subscriptionExists stSubE sidE = true ∧
    (stSubE.subs sidE).currentPeriodStart ≤
      (stSubE.subs sidE).currentPeriodEnd :=
  ⟨by decide, C5_period_start_le_end reachable_stSubE sidE (by decide)⟩

/-- Characterisation of `_chargeSubscription` on the success path (no
deferred cancel, pull succeeds). -/
theorem chargeSubscriptionInternal_success (st : State) (pullOk : Bool)
    (now subId : Nat)
    (hflag : (st.subs subId).cancelAtPeriodEnd = false)
    (hpull : executePaymentFrom (st.plans (st.subs subId).planId) pullOk
      = true) :
    chargeSubscriptionInternal st pullOk now subId =
      (((st.setSub subId
        { st.subs subId with
          currentPeriodStart := (st.subs subId).currentPeriodEnd,
          currentPeriodEnd := (st.subs subId).currentPeriodEnd +
            (st.plans (st.subs subId).planId).interval,
          paymentCount := (st.subs subId).paymentCount + 1 }).pushSubPayment
          subId
          { amount := (st.plans (st.subs subId).planId).amount,
            timestamp := now,
            periodStart := (st.subs subId).currentPeriodEnd,
            periodEnd := (st.subs subId).currentPeriodEnd +
              (st.plans (st.subs subId).planId).interval }).emit
        (.paymentExecuted subId (st.plans (st.subs subId).planId).amount now
          (st.subs subId).currentPeriodEnd
          ((st.subs subId).currentPeriodEnd +
            (st.plans (st.subs subId).planId).interval)), true) := by
  unfold chargeSubscriptionInternal
  dsimp only
  simp [hflag, hpull]

/-- Characterisation of a renewal `charge` on the success path. -/
theorem charge_success_spec (st : State) (L : Ledger) (pullOk : Bool)
    (now subId : Nat)
    (hex : subscriptionExists st subId = true)
    (helig : (canChargeInternal st L now subId).1 = true)
    (hflag : (st.subs subId).cancelAtPeriodEnd = false)
    (hpull : executePaymentFrom (st.plans (st.subs subId).planId) pullOk
      = true) :
    ∃ st', charge st L pullOk now subId = .ok (st', true) ∧
      (st'.subs subId).status = (st.subs subId).status ∧
      (st'.subs subId).currentPeriodStart =
        (st.subs subId).currentPeriodEnd ∧
      (st'.subs subId).currentPeriodEnd =
        (st.subs subId).currentPeriodEnd +
          (st.plans (st.subs subId).planId).interval ∧
      (st'.subs subId).paymentCount = (st.subs subId).paymentCount + 1 ∧
      st'.subPayments subId = st.subPayments subId ++
        [{ amount := (st.plans (st.subs subId).planId).amount,
           timestamp := now,
           periodStart := (st.subs subId).currentPeriodEnd,
           periodEnd := (st.subs subId).currentPeriodEnd +
             (st.plans (st.subs subId).planId).interval }] ∧
      (∀ i, i ≠ subId → st'.subs i = st.subs i ∧
        st'.subPayments i = st.subPayments i) ∧
      st'.plans = st.plans ∧ st'.payments = st.payments := by
  have hch : charge st L pullOk now subId =
      .ok (chargeSubscriptionInternal st pullOk now subId) := by
    unfold charge
    simp [hex, helig]
  rw [chargeSubscriptionInternal_success st pullOk now subId hflag hpull]
    at hch
  refine ⟨_, hch, ?_, ?_, ?_, ?_, ?_, ?_, ?_, ?_⟩ <;>
    simp [State.setSub, State.pushSubPayment, State.emit]
  intro i hi
  simp [hi]

/-- The trial subscription after its renewal pull failed at time 86500
(ample balance and allowance, but the ERC20 `transferFrom` returned
failure): status is Expired, period fields and payment count untouched. -/
def stExp : State := applyOp stSubE 86500 (.charge Lfull false sidE)

theorem reachable_stExp : Reachable stExp 86500 :=
  Reachable.step (.charge Lfull false sidE) 86500 reachable_stSubE
    (by decide)

/-- The state after charging the Expired subscription again at time
86600, this time with the pull succeeding. -/
def stExpNext : State := applyOp stExp 86600 (.charge Lfull true sidE)

/-- C1: the claim fails on the code. `_canCharge` never inspects the
Expired status, so in the concrete reachable state `stExp` — whose
subscription is Expired with zero payments — a later `charge` with
sufficient balance/allowance and a succeeding pull returns true, takes a
payment (payment count and history go from 0 to 1), and advances the
period fields; billing resumes with no new subscription. -/
theorem C1_counterexample :
    Reachable stExp 86500 ∧
    (stExp.subs sidE).status = .expired ∧
    (stExp.subs sidE).paymentCount = 0 ∧
    (stExp.subPayments sidE).length = 0 ∧
    (charge stExp Lfull true 86600 sidE).map (fun p => p.2) = .ok true ∧
    (stExpNext.subs sidE).paymentCount = 1 ∧
    (stExpNext.subPayments sidE).length = 1 ∧
    (stExpNext.subs sidE).currentPeriodStart = 86500 ∧
    (stExpNext.subs sidE).currentPeriodEnd = 172900 ∧
    (stExpNext.subs sidE).status = .expired :=
  ⟨reachable_stExp, by decide, by decide, by decide, by rfl, by decide,
    by decide, by decide, by decide, by decide⟩

/-- C1 (amended): the Expired status itself is never left behind, but it
is not a barrier to charging: for every Expired subscription that passes
the eligibility check (active plan, due, balance and allowance
sufficient) with no deferred cancel, a charge with a succeeding pull
takes a payment — it returns true, increments the payment count, appends
a Payment Record and advances the period — while the status remains
Expired; a new subscription is not required for billing to resume. -/
theorem C1_expired_chargeable (st : State) (L : Ledger) (pullOk : Bool)
    (now subId : Nat)
    (hex : subscriptionExists st subId = true)
    (hst : (st.subs subId).status = .expired)
    (helig : (canChargeInternal st L now subId).1 = true)
    (hflag : (st.subs subId).cancelAtPeriodEnd = false)
    (hpull : executePaymentFrom (st.plans (st.subs subId).planId) pullOk
      = true) :
    ∃ st', charge st L pullOk now subId = .ok (st', true) ∧
      (st'.subs subId).status = .expired ∧
      (st'.subs subId).paymentCount = (st.subs subId).paymentCount + 1 ∧
      (st'.subs subId).currentPeriodStart =
        (st.subs subId).currentPeriodEnd ∧
      (st'.subs subId).currentPeriodEnd =
        (st.subs subId).currentPeriodEnd +
          (st.plans (st.subs subId).planId).interval ∧
      st'.subPayments subId = st.subPayments subId ++
        [{ amount := (st.plans (st.subs subId).planId).amount,
           timestamp := now,
           periodStart := (st.subs subId).currentPeriodEnd,
           periodEnd := (st.subs subId).currentPeriodEnd +
             (st.plans (st.subs subId).planId).interval }] := by
  obtain ⟨st', hch, hstat, hps, hpe, hcnt, hrec, -, -, -⟩ :=
    charge_success_spec st L pullOk now subId hex helig hflag hpull
  exact ⟨st', hch, hstat.trans hst, hcnt, hps, hpe, hrec⟩

/-- C1 witness: applying the amended theorem in the concrete Expired
state `stExp` at time 86600 with a succeeding pull. -/
theorem C1_expired_chargeable_witness :
    subscriptionExists stExp sidE = true ∧
    (stExp.subs sidE).status = .expired ∧
    (∃ st', charge stExp Lfull true 86600 sidE = .ok (st', true) ∧
      (st'.subs sidE).status = .expired ∧
      (st'.subs sidE).paymentCount = (stExp.subs sidE).paymentCount + 1 ∧
      (st'.subs sidE).currentPeriodStart =
        (stExp.subs sidE).currentPeriodEnd ∧
      (st'.subs sidE).currentPeriodEnd =
        (stExp.subs sidE).currentPeriodEnd +
          (stExp.plans (stExp.subs sidE).planId).interval ∧
      st'.subPayments sidE = stExp.subPayments sidE ++
        [{ amount := (stExp.plans (stExp.subs sidE).planId).amount,
           timestamp := 86600,
           periodStart := (stExp.subs sidE).currentPeriodEnd,
           periodEnd := (stExp.subs sidE).currentPeriodEnd +
             (stExp.plans (stExp.subs sidE).planId).interval }]) :=
  ⟨by decide, by decide,
    C1_expired_chargeable stExp Lfull true 86600 sidE (by decide)
      (by decide) (by decide) (by decide) (by decide)⟩

/-- C6: a successful renewal charge on an eligible subscription without
the cancel-at-period-end flag anchors the new period to the old one —
`newPeriodStart` equals the old `currentPeriodEnd` (not the current
time), `newPeriodEnd = newPeriodStart + plan.interval` — for any
timestamp `now` passing the due check, so a single call advances the
period by exactly one interval even when several intervals have elapsed;
it increments the payment count by exactly one, appends exactly one
Payment Record, and returns true. -/
theorem C6_renewal_fixed_schedule (st : State) (L : Ledger)
    (pullOk : Bool) (now subId : Nat)
    (hex : subscriptionExists st subId = true)
    (helig : (canChargeInternal st L now subId).1 = true)
    (hflag : (st.subs subId).cancelAtPeriodEnd = false)
    (hpull : executePaymentFrom (st.plans (st.subs subId).planId) pullOk
      = true) :
    ∃ st', charge st L pullOk now subId = .ok (st', true) ∧
      (st'.subs subId).currentPeriodStart =
        (st.subs subId).currentPeriodEnd ∧
      (st'.subs subId).currentPeriodEnd =
        (st'.subs subId).currentPeriodStart +
          (st.plans (st.subs subId).planId).interval ∧
      (st'.subs subId).paymentCount = (st.subs subId).paymentCount + 1 ∧
      st'.subPayments subId = st.subPayments subId ++
        [{ amount := (st.plans (st.subs subId).planId).amount,
           timestamp := now,
           periodStart := (st.subs subId).currentPeriodEnd,
           periodEnd := (st.subs subId).currentPeriodEnd +
             (st.plans (st.subs subId).planId).interval }] := by
  obtain ⟨st', hch, -, hps, hpe, hcnt, hrec, -, -, -⟩ :=
    charge_success_spec st L pullOk now subId hex helig hflag hpull
  exact ⟨st', hch, hps, by rw [hps]; exact hpe, hcnt, hrec⟩

/-- C6 witness: charging the trial subscription at time 300000 — more
than two intervals past its period end 86500 — anchors the new period at
[86500, 172900), not at the call time. -/
theorem C6_renewal_fixed_schedule_witness :
    subscriptionExists stSubE sidE = true ∧
    (stSubE.subs sidE).currentPeriodEnd = 86500 ∧
    (∃ st', charge stSubE Lfull true 300000 sidE = .ok (st', true) ∧
      (st'.subs sidE).currentPeriodStart =
        (stSubE.subs sidE).currentPeriodEnd ∧
      (st'.subs sidE).currentPeriodEnd =
        (st'.subs sidE).currentPeriodStart +
          (stSubE.plans (stSubE.subs sidE).planId).interval ∧
      (st'.subs sidE).paymentCount = (stSubE.subs sidE).paymentCount + 1 ∧
      st'.subPayments sidE = stSubE.subPayments sidE ++
        [{ amount := (stSubE.plans (stSubE.subs sidE).planId).amount,
           timestamp := 300000,
           periodStart := (stSubE.subs sidE).currentPeriodEnd,
           periodEnd := (stSubE.subs sidE).currentPeriodEnd +
             (stSubE.plans (stSubE.subs sidE).planId).interval }]) :=
  ⟨by decide, by decide,
    C6_renewal_fixed_schedule stSubE Lfull true 300000 sidE (by decide)
      (by decide) (by decide) (by decide)⟩

/-- The eligibility decision as §4.4 of the spec words it: the seven
conditions evaluated in a fixed order, first match wins, with the
available balance and the authorized amount read from the external
ledger. Written from the spec for comparison with `canChargeInternal`. -/
def specCanCharge (planActive : Bool) (status : SubStatus)
    (now periodEnd balance allowance amount : Nat) :
    Bool × ChargeFailReason :=
  if planActive = false then (false, .planInactive)
  else if status = .canceled then (false, .canceled)
  else if status = .paused then (false, .paused)
  else if now < periodEnd then (false, .notDue)
  else if balance < amount then (false, .insufficientBalance)
  else if allowance < amount then (false, .notApproved)
  else (true, .success)

/-- The native-token plan 6 (amount 10, one-day interval) created at
time 100 on a fresh deployment. -/
def stPlanN : State := applyOp (initialState 1) 100 (.createPlan 1 6 10 0 oneDay 2)

/-- The id of the subscription created at time 100 on plan 6 by
subscriber 3 (nonce 1). -/
def sidN : Nat := genSubId 6 3 100 1

/-- After subscriber 3 takes a one-day trial on the native plan 6. -/
def stSubN : State := applyOp stPlanN 100 (.subscribeWithTrial 3 true 6 1)

theorem reachable_stSubN : Reachable stSubN 100 :=
  Reachable.step (.subscribeWithTrial 3 true 6 1) 100
    (Reachable.step (.createPlan 1 6 10 0 oneDay 2) 100
      (Reachable.init 1 100) (Nat.le_refl 100))
    (Nat.le_refl 100)

/-- C2: the claim fails on the code for native-token plans. In the
concrete reachable state `stSubN` the subscription is due on an active
native plan, not Canceled/Paused, and the subscriber's available balance
(0) is below the plan amount (10), yet `_canCharge` returns
(true, Success): the balance and authorization checks are skipped
entirely for the native token. -/
theorem C2_counterexample :
    Reachable stSubN 100 ∧ subscriptionExists stSubN 100 = false ∧
    subscriptionExists stSubN sidN = true ∧
    (stSubN.plans (stSubN.subs sidN).planId).active = true ∧
    (stSubN.subs sidN).status = .active ∧
    (stSubN.subs sidN).currentPeriodEnd ≤ 86500 ∧
    Lempty.balanceOf (stSubN.subs sidN).subscriber
        (stSubN.plans (stSubN.subs sidN).planId).token <
      (stSubN.plans (stSubN.subs sidN).planId).amount ∧
    canChargeInternal stSubN Lempty 86500 sidN = (true, .success) :=
  ⟨reachable_stSubN, by decide, by decide, by decide, by decide, by decide,
    by decide, by decide⟩

/-- C2 (amended): for every existing subscription on a plan whose token
is an ERC20 token, `_canCharge` evaluates the seven conditions exactly in
the spec's fixed order and returns the first match; for a plan using the
native token, conditions 5 and 6 (balance and authorization) are skipped
and a due, active, non-Canceled, non-Paused subscription yields
(true, Success) regardless of balances. -/
theorem C2_canCharge_order (st : State) (L : Ledger) (now subId : Nat)
    (hex : subscriptionExists st subId = true) :
    ((st.plans (st.subs subId).planId).token ≠ 0 →
      canChargeInternal st L now subId =
        specCanCharge (st.plans (st.subs subId).planId).active
          (st.subs subId).status now (st.subs subId).currentPeriodEnd
          (L.balanceOf (st.subs subId).subscriber
            (st.plans (st.subs subId).planId).token)
          (L.allowance (st.subs subId).subscriber
            (st.plans (st.subs subId).planId).token)
          (st.plans (st.subs subId).planId).amount) ∧
    ((st.plans (st.subs subId).planId).token = 0 →
      canChargeInternal st L now subId =
        if (st.plans (st.subs subId).planId).active = false then
          (false, .planInactive)
        else if (st.subs subId).status = .canceled then (false, .canceled)
        else if (st.subs subId).status = .paused then (false, .paused)
        else if now < (st.subs subId).currentPeriodEnd then (false, .notDue)
        else (true, .success)) := by
  refine ⟨fun htok => ?_, fun htok => ?_⟩
  · unfold canChargeInternal specCanCharge
    dsimp only
    simp only [Bool.not_eq_true']
    split_ifs <;> simp_all
  · unfold canChargeInternal
    dsimp only
    simp only [htok, Bool.not_eq_true', reduceIte]

/-- C2 witness: in the ERC20 scenario with empty ledger at time 86500,
the code's verdict coincides with the spec-ordered decision, which is
(false, InsufficientBalance). -/
theorem C2_canCharge_order_witness :
    subscriptionExists stSubE sidE = true ∧
    (stSubE.plans (stSubE.subs sidE).planId).token ≠ 0 ∧
    canChargeInternal stSubE Lempty 86500 sidE =
      specCanCharge (stSubE.plans (stSubE.subs sidE).planId).active
        (stSubE.subs sidE).status 86500
        (stSubE.subs sidE).currentPeriodEnd
        (Lempty.balanceOf (stSubE.subs sidE).subscriber
          (stSubE.plans (stSubE.subs sidE).planId).token)
        (Lempty.allowance (stSubE.subs sidE).subscriber
          (stSubE.plans (stSubE.subs sidE).planId).token)
        (stSubE.plans (stSubE.subs sidE).planId).amount ∧
    canChargeInternal stSubE Lempty 86500 sidE =
      (false, .insufficientBalance) :=
  ⟨by decide, by decide,
    (C2_canCharge_order stSubE Lempty 86500 sidE (by decide)).1 (by decide),
    by decide⟩

/-- The Canceled subscription on a plan its merchant then deactivated. -/
def stC4 : State := applyOp stC5 100 (.updatePlan 2 5 false)

/-- C4: the claim's "regardless of the plan's state" fails on the code:
plan inactivity is checked before the Canceled status, so in the concrete
reachable state `stC4` — a Canceled subscription whose plan was
deactivated — `charge` returns false but the failure notification carries
PlanInactive (6), not Canceled (5). -/
theorem C4_counterexample :
    Reachable stC4 100 ∧
    (stC4.subs sidE).status = .canceled ∧
    (stC4.plans (stC4.subs sidE).planId).active = false ∧
    canChargeInternal stC4 Lfull 200000 sidE = (false, .planInactive) ∧
    (charge stC4 Lfull true 200000 sidE).map (fun p => p.2) = .ok false ∧
    (applyOp stC4 200000 (.charge Lfull true sidE)).events =
      stC4.events ++
        [.paymentFailed sidE ChargeFailReason.planInactive.toUint8] ∧
    ChargeFailReason.planInactive ≠ ChargeFailReason.canceled :=
  ⟨Reachable.step (.updatePlan 2 5 false) 100
      (Reachable.step (.cancelSubscription 3 sidE true) 100
        reachable_stSubE (Nat.le_refl 100)) (Nat.le_refl 100),
    by decide, by decide, by decide, by rfl, by decide, by decide⟩

/-- C4 (amended): `charge` on a Canceled subscription always returns
false and mutates neither the subscriptions nor the payment history —
the only state change is the failure notification — and that
notification carries reason Canceled when the plan is active; when the
plan is inactive the plan check fires first and the reason is
PlanInactive. -/
theorem C4_charge_canceled (st : State) (L : Ledger) (pullOk : Bool)
    (now subId : Nat)
    (hex : subscriptionExists st subId = true)
    (hst : (st.subs subId).status = .canceled) :
    ∃ st', charge st L pullOk now subId = .ok (st', false) ∧
      st'.subs = st.subs ∧ st'.subPayments = st.subPayments ∧
      st'.payments = st.payments ∧ st'.plans = st.plans ∧
      st'.events = st.events ++
        [.paymentFailed subId
          ((if (st.plans (st.subs subId).planId).active = true then
            ChargeFailReason.canceled
          else ChargeFailReason.planInactive).toUint8)] := by
  have hr : canChargeInternal st L now subId =
      (false, if (st.plans (st.subs subId).planId).active = true then
        ChargeFailReason.canceled else ChargeFailReason.planInactive) := by
    unfold canChargeInternal
    dsimp only
    by_cases ha : (st.plans (st.subs subId).planId).active <;>
      simp [ha, hst]
  have hch : charge st L pullOk now subId =
      .ok (st.emit (.paymentFailed subId
        ((if (st.plans (st.subs subId).planId).active = true then
          ChargeFailReason.canceled
        else ChargeFailReason.planInactive).toUint8)), false) := by
    unfold charge
    simp [hex, hr]
  exact ⟨_, hch, rfl, rfl, rfl, rfl, by simp [State.emit]⟩

/-- C4 witness: charging the Canceled subscription `stC5` (active plan)
at time 200000 returns false, leaves subscriptions and history intact,
and emits reason Canceled (5). -/
theorem C4_charge_canceled_witness :
    subscriptionExists stC5 sidE = true ∧
    (stC5.subs sidE).status = .canceled ∧
    (stC5.plans (stC5.subs sidE).planId).active = true ∧
    (∃ st', charge stC5 Lfull true 200000 sidE = .ok (st', false) ∧
      st'.subs = stC5.subs ∧ st'.subPayments = stC5.subPayments ∧
      st'.payments = stC5.payments ∧ st'.plans = stC5.plans ∧
      st'.events = stC5.events ++
        [.paymentFailed sidE
          ((if (stC5.plans (stC5.subs sidE).planId).active = true then
            ChargeFailReason.canceled
          else ChargeFailReason.planInactive).toUint8)]) :=
  ⟨by decide, by decide, by decide,
    C4_charge_canceled stC5 Lfull true 200000 sidE (by decide) (by decide)⟩

/-- The state after `subscribeWithTrial(plan 5, trialDays = 0)` by
subscriber 3 at time 100 (ERC20 plan, push transfer succeeding). -/
def stSub0 : State := applyOp stPlanE 100 (.subscribeWithTrial 3 true 5 0)

/-- C3: the claim fails at `trialDays = 0`. In `_subscribe`, `trialDays
== 0` falls into the immediate-charge branch, so in the concrete
reachable state `stSub0` the created subscription has payment count 1
and one Payment Record, its period end is `now + interval` rather than
`now + 0 days`, and with a failing push transfer the same call reverts
instead of creating a charge-free subscription. -/
theorem C3_counterexample :
    Reachable stSub0 100 ∧
    subscriptionExists stSub0 sidE = true ∧
    (stSub0.subs sidE).paymentCount = 1 ∧
    (stSub0.subPayments sidE).length = 1 ∧
    (stSub0.subs sidE).currentPeriodEnd = 100 + oneDay ∧
    (stSub0.subs sidE).currentPeriodEnd ≠ 100 + 0 * oneDay ∧
    subscribeWithTrial stPlanE 3 100 false 5 0 = .error "Transfer failed" :=
  ⟨Reachable.step (.subscribeWithTrial 3 true 5 0) 100 reachable_stPlanE
      (Nat.le_refl 100),
    by decide, by decide, by decide, by decide, by decide, by rfl⟩

/-- With a nonzero trial, `subscribeWithTrial` never consults the push
transfer oracle: no value transfer is attempted. -/
theorem subscribeWithTrial_push_independent (st : State)
    (caller now : Nat) (pushOk pushOk' : Bool) (planId trialDays : Nat)
    (hne : trialDays ≠ 0) :
    subscribeWithTrial st caller now pushOk planId trialDays =
      subscribeWithTrial st caller now pushOk' planId trialDays := by
  unfold subscribeWithTrial subscribeInternal
  dsimp only
  simp [hne]

/-- C3 (amended): for every active plan and every `trialDays > 0`,
`subscribeWithTrial` creates an Active subscription for the caller with
`periodEnd = now + trialDays` days, payment count 0 and no Payment
Record, and no value transfer is attempted (the outcome does not depend
on the transfer oracle); at `trialDays = 0` the call instead behaves
like `subscribe`, taking an immediate charge with payment count 1 and
one Payment Record. -/
theorem C3_trial_subscription (st : State) (caller now : Nat)
    (pushOk : Bool) (planId trialDays : Nat) {st' : State} {sid : Nat}
    (hpos : 0 < trialDays)
    (hok : subscribeWithTrial st caller now pushOk planId trialDays
      = .ok (st', sid)) :
    (st'.subs sid).status = .active ∧
    (st'.subs sid).subscriber = caller ∧
    (st'.subs sid).currentPeriodStart = now ∧
    (st'.subs sid).currentPeriodEnd = now + trialDays * oneDay ∧
    (st'.subs sid).paymentCount = 0 ∧
    st'.subPayments sid = st.subPayments sid ∧
    (∀ pushOk', subscribeWithTrial st caller now pushOk' planId trialDays
      = .ok (st', sid)) := by
  have hne : trialDays ≠ 0 := Nat.pos_iff_ne_zero.mp hpos
  refine ?_
  have hfields : (st'.subs sid).status = .active ∧
      (st'.subs sid).subscriber = caller ∧
      (st'.subs sid).currentPeriodStart = now ∧
      (st'.subs sid).currentPeriodEnd = now + trialDays * oneDay ∧
      (st'.subs sid).paymentCount = 0 ∧
      st'.subPayments sid = st.subPayments sid := by
    unfold subscribeWithTrial at hok
    split at hok <;> try exact Except.noConfusion hok
    split at hok <;> try exact Except.noConfusion hok
    unfold subscribeInternal at hok
    dsimp only at hok
    split at hok <;> try exact Except.noConfusion hok
    split at hok
    · exact Except.noConfusion hok
    cases hok
    simp [hne, hpos, State.setSub, State.pushSubPayment, State.emit,
      State.setPlan]
  exact ⟨hfields.1, hfields.2.1, hfields.2.2.1, hfields.2.2.2.1,
    hfields.2.2.2.2.1, hfields.2.2.2.2.2, fun pushOk' =>
      (subscribeWithTrial_push_independent st caller now pushOk' pushOk
        planId trialDays hne).trans hok⟩

/-- C3 witness: the concrete one-day trial subscription `stSubE` has the
amended properties. -/
theorem C3_trial_subscription_witness :
    (stSubE.subs sidE).status = .active ∧
    (stSubE.subs sidE).subscriber = 3 ∧
    (stSubE.subs sidE).currentPeriodStart = 100 ∧
    (stSubE.subs sidE).currentPeriodEnd = 100 + 1 * oneDay ∧
    (stSubE.subs sidE).paymentCount = 0 ∧
    stSubE.subPayments sidE = stPlanE.subPayments sidE ∧
    (∀ pushOk', subscribeWithTrial stPlanE 3 100 pushOk' 5 1
      = .ok (stSubE, sidE)) :=
  C3_trial_subscription stPlanE 3 100 true 5 1 (by decide) (by rfl)

/-- A push transfer rejected by the ledger never reports success. -/
theorem executePayment_false (p : Plan) (msgValue : Nat) :
    executePayment p msgValue false = false := by
  unfold executePayment
  split <;> simp

/-- Characterisation of `_chargeSubscription` when the pull fails: the
only storage change is the subscription's status becoming Expired (plus
the two notifications). -/
theorem chargeSubscriptionInternal_pullfail (st : State) (pullOk : Bool)
    (now subId : Nat)
    (hflag : (st.subs subId).cancelAtPeriodEnd = false)
    (hpull : executePaymentFrom (st.plans (st.subs subId).planId) pullOk
      = false) :
    chargeSubscriptionInternal st pullOk now subId =
      (((st.setSub subId
        { st.subs subId with status := .expired }).emit
        (.subscriptionStatusChanged subId (st.subs subId).status.toNat 3)).emit
        (.paymentFailed subId ChargeFailReason.insufficientBalance.toUint8),
        false) := by
  unfold chargeSubscriptionInternal
  dsimp only
  simp [hflag, hpull]

/-- C7: a ledger push failure during `subscribe`, `pay` or `refund`
reverts the whole operation (zero state change, by the revert
semantics), while a pull failure during an eligible renewal `charge`
commits exactly one storage change — the subscription's status becomes
Expired — leaving its period fields, payment count, every other
subscription, all payment histories, one-time payments and plans exactly
as before, and returning false. -/
theorem C7_transfer_failure_atomicity (st : State) (L : Ledger)
    (caller now msgValue planId orderId amount token merchant subId
      refundAmount toAddr : Nat) (pullOk : Bool)
    (hex : subscriptionExists st subId = true)
    (helig : (canChargeInternal st L now subId).1 = true)
    (hflag : (st.subs subId).cancelAtPeriodEnd = false)
    (hpullfail : executePaymentFrom (st.plans (st.subs subId).planId)
      pullOk = false) :
    (∃ e, subscribe st caller now msgValue false planId = .error e) ∧
    (∃ e, pay st caller now msgValue false orderId amount token merchant
      = .error e) ∧
    (∃ e, refund st caller now msgValue false subId refundAmount toAddr
      = .error e) ∧
    (∃ st', charge st L pullOk now subId = .ok (st', false) ∧
      st'.subs subId = { st.subs subId with status := .expired } ∧
      (st'.subs subId).currentPeriodStart =
        (st.subs subId).currentPeriodStart ∧
      (st'.subs subId).currentPeriodEnd =
        (st.subs subId).currentPeriodEnd ∧
      (st'.subs subId).paymentCount = (st.subs subId).paymentCount ∧
      (∀ i, i ≠ subId → st'.subs i = st.subs i) ∧
      st'.subPayments = st.subPayments ∧
      st'.payments = st.payments ∧ st'.plans = st.plans) := by
  refine ⟨?_, ?_, ?_, ?_⟩
  · cases hres : subscribe st caller now msgValue false planId with
    | error e => exact ⟨e, rfl⟩
    | ok p =>
      exfalso
      unfold subscribe at hres
      split at hres <;> try exact Except.noConfusion hres
      split at hres <;> try exact Except.noConfusion hres
      unfold subscribeInternal at hres
      dsimp only at hres
      split at hres <;> try exact Except.noConfusion hres
      split at hres
      · exact Except.noConfusion hres
      · rename_i hcond
        exact hcond ⟨rfl, executePayment_false _ _⟩
  · cases hres : pay st caller now msgValue false orderId amount token
        merchant with
    | error e => exact ⟨e, rfl⟩
    | ok st2 =>
      exfalso
      unfold pay at hres
      split at hres <;> try exact Except.noConfusion hres
      split at hres <;> try exact Except.noConfusion hres
      split at hres <;> try exact Except.noConfusion hres
      split at hres <;> try exact Except.noConfusion hres
      split at hres <;> try exact Except.noConfusion hres
      split at hres
      · split at hres <;> simp at hres
      · simp at hres
  · cases hres : refund st caller now msgValue false subId refundAmount
        toAddr with
    | error e => exact ⟨e, rfl⟩
    | ok st2 =>
      exfalso
      unfold refund at hres
      try dsimp only at hres
      split at hres <;> try exact Except.noConfusion hres
      split at hres <;> try exact Except.noConfusion hres
      split at hres <;> try exact Except.noConfusion hres
      split at hres
      · split at hres <;> simp at hres
      · simp at hres
  · have hch : charge st L pullOk now subId =
        .ok (chargeSubscriptionInternal st pullOk now subId) := by
      unfold charge
      simp [hex, helig]
    rw [chargeSubscriptionInternal_pullfail st pullOk now subId hflag
      hpullfail] at hch
    refine ⟨_, hch, ?_, ?_, ?_, ?_, ?_, rfl, rfl, rfl⟩ <;>
      simp [State.setSub, State.emit]
    intro i hi
    simp [hi]

/-- C7 witness: with the due trial subscription `stSubE` and a failing
pull at time 86500, `subscribe`/`pay`/`refund` with a failing push all
revert, and `charge` commits exactly the Expired transition. -/
theorem C7_transfer_failure_atomicity_witness :
    subscriptionExists stSubE sidE = true ∧
    ((∃ e, subscribe stSubE 3 86500 0 false 5 = .error e) ∧
    (∃ e, pay stSubE 3 86500 0 false 11 10 7 2 = .error e) ∧
    (∃ e, refund stSubE 3 86500 0 false sidE 5 0 = .error e) ∧
    (∃ st', charge stSubE Lfull false 86500 sidE = .ok (st', false) ∧
      st'.subs sidE = { stSubE.subs sidE with status := .expired } ∧
      (st'.subs sidE).currentPeriodStart =
        (stSubE.subs sidE).currentPeriodStart ∧
      (st'.subs sidE).currentPeriodEnd =
        (stSubE.subs sidE).currentPeriodEnd ∧
      (st'.subs sidE).paymentCount = (stSubE.subs sidE).paymentCount ∧
      (∀ i, i ≠ sidE → st'.subs i = stSubE.subs i) ∧
      st'.subPayments = stSubE.subPayments ∧
      st'.payments = stSubE.payments ∧ st'.plans = stSubE.plans)) :=
  ⟨by decide,
    C7_transfer_failure_atomicity stSubE Lfull 3 86500 0 5 11 10 7 2 sidE
      5 0 false (by decide) (by decide) (by decide) (by decide)⟩

/-- C8: a successful `pay` records the paid One-Time Payment under its
order id, `getPayment` reflects it, and any second `pay` under the same
order id — whatever its caller, amount, token or merchant — fails with
"Order already paid" before any transfer (the duplicate check precedes
the transfer code), leaving all state unchanged by the revert
semantics. -/
theorem C8_pay_unique_order (st : State) (caller now msgValue : Nat)
    (pushOk : Bool) (orderId amount token merchant : Nat) {st' : State}
    (hcaller : caller ≠ 0)
    (hok : pay st caller now msgValue pushOk orderId amount token merchant
      = .ok st') :
    st'.payments orderId =
      { orderId := orderId, payer := caller, merchant := merchant,
        amount := amount, token := token, timestamp := now, paid := true } ∧
    getPayment st' orderId = (true, caller, merchant, amount, token, now) ∧
    (∀ c2 n2 v2 ok2 a2 t2 m2,
      pay st' c2 n2 v2 ok2 orderId a2 t2 m2
        = .error "Order already paid") := by
  unfold pay at hok
  split at hok <;> try exact Except.noConfusion hok
  split at hok <;> try exact Except.noConfusion hok
  split at hok <;> try exact Except.noConfusion hok
  split at hok <;> try exact Except.noConfusion hok
  split at hok <;> try exact Except.noConfusion hok
  rename_i hpause hpaid hamt hmer htok
  split at hok
  · split at hok <;> try exact Except.noConfusion hok
    split at hok <;> try exact Except.noConfusion hok
    cases hok
    refine ⟨by simp [State.setPayment, State.emit], by
      unfold getPayment
      simp [State.setPayment, State.emit], ?_⟩
    intro c2 n2 v2 ok2 a2 t2 m2
    unfold pay
    simp [State.setPayment, State.emit, hpause, hcaller]
  · split at hok <;> try exact Except.noConfusion hok
    cases hok
    refine ⟨by simp [State.setPayment, State.emit], by
      unfold getPayment
      simp [State.setPayment, State.emit], ?_⟩
    intro c2 n2 v2 ok2 a2 t2 m2
    unfold pay
    simp [State.setPayment, State.emit, hpause, hcaller]

/-- The state after caller 3 pays order 11 (amount 10, ERC20 token 7,
merchant 2) at time 100. -/
def stPay : State := applyOp stTok 100 (.pay 3 0 true 11 10 7 2)

/-- C8 witness: the concrete first payment of order 11, and the fate of
any second attempt. -/
theorem C8_pay_unique_order_witness :
    (3 : Nat) ≠ 0 ∧
    (stPay.payments 11 =
      { orderId := 11, payer := 3, merchant := 2, amount := 10,
        token := 7, timestamp := 100, paid := true } ∧
    getPayment stPay 11 = (true, 3, 2, 10, 7, 100) ∧
    (∀ c2 n2 v2 ok2 a2 t2 m2,
      pay stPay c2 n2 v2 ok2 11 a2 t2 m2
        = .error "Order already paid")) :=
  ⟨by decide, C8_pay_unique_order stTok 3 100 0 true 11 10 7 2
    (by decide) (by rfl)⟩

/-- The batch loop produces one result per input, in order, regardless
of individual outcomes (no early abort). -/
theorem batchChargeGo_length (L : Ledger) (now : Nat)
    (pullOks : Nat → Bool) :
    ∀ (ids : List Nat) (i : Nat) (st : State),
    (batchChargeGo L now pullOks i st ids).2.length = ids.length := by
  intro ids
  induction ids with
  | nil => intro i st; rfl
  | cons hd tl ih =>
    intro i st
    simp [batchChargeGo, ih]

/-- An unknown id in the batch yields false with no state change. -/
theorem batchChargeStep_unknown (L : Ledger) (now : Nat) (b : Bool)
    (s : State) (sid : Nat) (hmiss : subscriptionExists s sid = false) :
    batchChargeStep L now b s sid = (s, false) := by
  unfold batchChargeStep
  simp [hmiss]

/-- A batch item touches no subscription or history other than its own,
and never touches plans or one-time payments. -/
theorem batchChargeStep_isolated (L : Ledger) (now : Nat) (b : Bool)
    (s : State) (sid j : Nat) (hj : j ≠ sid) :
    (batchChargeStep L now b s sid).1.subs j = s.subs j ∧
    (batchChargeStep L now b s sid).1.subPayments j = s.subPayments j ∧
    (batchChargeStep L now b s sid).1.plans = s.plans ∧
    (batchChargeStep L now b s sid).1.payments = s.payments := by
  unfold batchChargeStep
  split
  · exact ⟨rfl, rfl, rfl, rfl⟩
  split
  · unfold chargeSubscriptionInternal
    dsimp only
    split
    · simp [State.setSub, State.emit, hj]
    split
    · simp [State.setSub, State.emit, hj]
    · simp [State.setSub, State.emit, State.pushSubPayment, hj]
  · exact ⟨rfl, rfl, rfl, rfl⟩

/-- C9: `batchCharge` rejects lists longer than the maximum batch size;
otherwise it runs the in-order item loop and returns exactly one result
per input id (no early abort, whatever the individual outcomes); an
unknown id yields false at its position with no state change; and each
item — succeed or fail — leaves every other subscription, every other
history, all plans and all one-time payments untouched, so one item's
failure cannot change another item's outcome. -/
theorem C9_batchCharge (st : State) (L : Ledger) (pullOks : Nat → Bool)
    (now : Nat) (ids : List Nat) :
    (ids.length > MAX_BATCH_SIZE →
      batchCharge st L pullOks now ids = .error "Batch too large") ∧
    (ids.length ≤ MAX_BATCH_SIZE →
      batchCharge st L pullOks now ids =
        .ok (batchChargeGo L now pullOks 0 st ids) ∧
      (batchChargeGo L now pullOks 0 st ids).2.length = ids.length) ∧
    (∀ s b sid, subscriptionExists s sid = false →
      batchChargeStep L now b s sid = (s, false)) ∧
    (∀ s b sid j, j ≠ sid →
      (batchChargeStep L now b s sid).1.subs j = s.subs j ∧
      (batchChargeStep L now b s sid).1.subPayments j = s.subPayments j ∧
      (batchChargeStep L now b s sid).1.plans = s.plans ∧
      (batchChargeStep L now b s sid).1.payments = s.payments) := by
  refine ⟨fun hbig => ?_, fun hsmall => ⟨?_, ?_⟩, ?_, ?_⟩
  · unfold batchCharge
    simp [hbig]
  · unfold batchCharge
    simp [Nat.not_lt.mpr hsmall, Nat.not_lt_of_le hsmall]
  · exact batchChargeGo_length L now pullOks ids 0 st
  · exact fun s b sid => batchChargeStep_unknown L now b s sid
  · exact fun s b sid j => batchChargeStep_isolated L now b s sid j

/-- C9 witness: a 101-element batch is rejected; the batch
[subscription, unknown id 999, same subscription] completes with three
results; and the unknown-id step is a no-op returning false. -/
theorem C9_batchCharge_witness :
    batchCharge stSubE Lfull (fun _ => true) 86500 (List.replicate 101 0)
      = .error "Batch too large" ∧
    batchCharge stSubE Lfull (fun _ => true) 86500 [sidE, 999, sidE] =
      .ok (batchChargeGo Lfull 86500 (fun _ => true) 0 stSubE
        [sidE, 999, sidE]) ∧
    (batchChargeGo Lfull 86500 (fun _ => true) 0 stSubE
      [sidE, 999, sidE]).2.length = 3 ∧
    batchChargeStep Lfull 86500 true stSubE 999 = (stSubE, false) :=
  ⟨(C9_batchCharge stSubE Lfull (fun _ => true) 86500
      (List.replicate 101 0)).1 (by decide),
    ((C9_batchCharge stSubE Lfull (fun _ => true) 86500
      [sidE, 999, sidE]).2.1 (by decide)).1,
    ((C9_batchCharge stSubE Lfull (fun _ => true) 86500
      [sidE, 999, sidE]).2.1 (by decide)).2,
    (C9_batchCharge stSubE Lfull (fun _ => true) 86500 []).2.2.1
      stSubE true 999 (by decide)⟩

/-- The plan stored under the zero plan id (planId `bytes32(0)`), native
token, created at time 100 on a fresh deployment. -/
def stZeroPlan : State :=
  applyOp (initialState 1) 100 (.createPlan 1 0 10 0 oneDay 2)

/-- C10: the claim fails when an active plan is stored under the zero
plan id. A missing subscription reads as the all-zero record, whose
`planId` is 0; in the reachable state `stZeroPlan` — where a merchant
created a plan with id 0 on the native token — `canCharge` on the
missing id 999 returns (true, Success), not (false, PlanInactive).
`charge` on the same id still reverts with "Subscription not found". -/
theorem C10_counterexample :
    Reachable stZeroPlan 100 ∧
    subscriptionExists stZeroPlan 999 = false ∧
    (stZeroPlan.plans 0).active = true ∧
    canCharge stZeroPlan Lempty 100 999 =
      (true, ChargeFailReason.success.toUint8) ∧
    canCharge stZeroPlan Lempty 100 999 ≠
      (false, ChargeFailReason.planInactive.toUint8) ∧
    charge stZeroPlan Lempty true 100 999
      = .error "Subscription not found" :=
  ⟨Reachable.step (.createPlan 1 0 10 0 oneDay 2) 100
      (Reachable.init 1 100) (Nat.le_refl 100),
    by decide, by decide, by decide, by decide, by rfl⟩

/-- C10 (amended): for a subscription id with no existing subscription,
`charge` fails with "Subscription not found" and changes no state, while
the public `canCharge` does not signal non-existence: provided the plan
referenced by the all-zero subscription record (the zero plan id) is not
active — in particular whenever no plan was ever created under id 0 —
it returns (false, PlanInactive) without error; if an active plan is
stored under the zero id the verdict can even be (true, Success). -/
theorem C10_missing_subscription (st : State) (L : Ledger)
    (pullOk : Bool) (now subId : Nat)
    (hmiss : subscriptionExists st subId = false)
    (hplan0 : (st.plans (st.subs subId).planId).active = false) :
    canCharge st L now subId =
      (false, ChargeFailReason.planInactive.toUint8) ∧
    charge st L pullOk now subId = .error "Subscription not found" := by
  constructor
  · unfold canCharge canChargeInternal
    dsimp only
    simp [hplan0]
  · unfold charge
    simp [hmiss]

/-- C10 witness: on the fresh deployment, `canCharge` of the missing id
999 answers (false, PlanInactive) and `charge` reverts not-found. -/
theorem C10_missing_subscription_witness :
    subscriptionExists (initialState 1) 999 = false ∧
    ((initialState 1).plans
      (((initialState 1).subs 999).planId)).active = false ∧
    (canCharge (initialState 1) Lempty 100 999 =
      (false, ChargeFailReason.planInactive.toUint8) ∧
    charge (initialState 1) Lempty true 100 999
      = .error "Subscription not found") :=
  ⟨by decide, by decide,
    C10_missing_subscription (initialState 1) Lempty true 100 999
      (by decide) (by decide)⟩

end PaymentSub
